import Mathlib

/-!
Verification of `src/server/main.py` (ohshane/jraph).

The repository is a FastAPI application consisting of
  - `app = FastAPI(root_path="/api/v1/resource")`,
  - a permissive `CORSMiddleware` registration
    (allow_origins, allow_methods, allow_headers all wildcard,
    allow_credentials true), and
  - one route, `@app.get("/healthz")`, whose handler returns the constant
    dict with field `message` set to `Service healthy.`.

The repository itself holds only this configuration; the request pipeline it
configures is the framework (FastAPI / Starlette).  The definitions below
therefore embed the framework semantics that the configuration invokes,
specialised by the values in `main.py`:
  - routing with ASGI root-path stripping (Starlette `get_route_path` removes
    the `root_path` when it is a leading part of the request path);
  - `Route` / FastAPI `APIRoute` method dispatch: the route built by
    `app.get` carries exactly the method set `GET` (FastAPI `APIRoute` does
    not add `HEAD`); a path match with a wrong method raises an HTTP 405
    exception; with no path match the router first retries the slash-toggled
    path (`redirect_slashes`, answering a match with a 307 redirect) and only
    then raises HTTP 404; FastAPI renders an HTTP exception as a JSON body
    with a `detail` field;
  - Starlette `CORSMiddleware`: requests without an `origin` header pass
    through untouched; an `OPTIONS` request with an
    `access-control-request-method` header gets a preflight response built
    from the configured policy; every other request with an `origin` header
    gets the inner response with the simple CORS headers attached, the
    allow-origin value being the literal star unless the request also
    carries a cookie, in which case the request origin is echoed back.

Header names are kept lowercase throughout, as the ASGI specification
requires of the transport layer, and only the key/value content of a header
block is modelled, not its on-wire ordering.
-/

namespace JraphServer

/-- An HTTP request as delivered to the ASGI application.  Header names are
lowercase ASGI-style; `query` carries the decoded query parameters. -/
structure Request where
  method : String
  path : String
  headers : List (String × String)
  query : List (String × String)
deriving DecidableEq

/-- A response body: either a JSON object given by its fields, or plain text. -/
inductive Body where
  | json (fields : List (String × String))
  | text (s : String)
deriving DecidableEq

/-- An HTTP response: status code, headers (lowercase names), body. -/
structure Response where
  status : Nat
  headers : List (String × String)
  body : Body
deriving DecidableEq

/-- First value stored under a header name, scanning left to right. -/
def headerLookup : List (String × String) → String → Option String
  | [], _ => none
  | kv :: rest, name => if kv.1 = name then some kv.2 else headerLookup rest name

/-- Drop every entry stored under name `n`. -/
def removeKey : List (String × String) → String → List (String × String)
  | [], _ => []
  | kv :: t, n => if kv.1 = n then removeKey t n else kv :: removeKey t n

/-- Store `v` under name `n`, replacing any previous entry with that name.
Only the lookup content matters in this model, not the entry order. -/
def setHeader (hs : List (String × String)) (n v : String) : List (String × String) :=
  (n, v) :: removeKey hs n

/-- Apply a list of header updates in order (Starlette `headers.update`). -/
def updateHeaders (hs : List (String × String)) : List (String × String) → List (String × String)
  | [] => hs
  | kv :: rest => updateHeaders (setHeader hs kv.1 kv.2) rest

/-! ### The configuration taken from `src/server/main.py` -/

/-- `FastAPI(root_path="/api/v1/resource")`, main.py line 5. -/
def root_path : String := "/api/v1/resource"

/-- The keyword arguments of `app.add_middleware(CORSMiddleware, ...)`,
main.py lines 6-12, together with the middleware default `max_age=600`. -/
structure CORSConfig where
  allow_origins : List String
  allow_methods : List String
  allow_headers : List String
  allow_credentials : Bool
  max_age : Nat
deriving DecidableEq

/-- The CORS policy registered in main.py lines 6-12. -/
def corsConfig : CORSConfig :=
  { allow_origins := ["*"]
    allow_methods := ["*"]
    allow_headers := ["*"]
    allow_credentials := true
    max_age := 600 }

/-! ### Starlette `CORSMiddleware` semantics, parameterised by the policy -/

/-- Starlette `ALL_METHODS`. -/
def ALL_METHODS : List String :=
  ["DELETE", "GET", "HEAD", "OPTIONS", "PATCH", "POST", "PUT"]

/-- Starlette `SAFELISTED_HEADERS`. -/
def SAFELISTED_HEADERS : List String :=
  ["Accept", "Accept-Language", "Content-Language", "Content-Type"]

def allowAllOrigins (c : CORSConfig) : Bool := c.allow_origins.contains "*"

def allowAllHeaders (c : CORSConfig) : Bool := c.allow_headers.contains "*"

/-- A wildcard in `allow_methods` expands to every method. -/
def effectiveAllowMethods (c : CORSConfig) : List String :=
  if c.allow_methods.contains "*" then ALL_METHODS else c.allow_methods

/-- The preflight response must name the origin explicitly whenever the
origin list is not a pure wildcard or credentials are allowed. -/
def preflightExplicitAllowOrigin (c : CORSConfig) : Bool :=
  !allowAllOrigins c || c.allow_credentials

/-- Insertion sort on strings, standing in for Python `sorted`. -/
def insertStr (x : String) : List String → List String
  | [] => [x]
  | y :: ys => if x ≤ y then x :: y :: ys else y :: insertStr x ys

def sortStr : List String → List String
  | [] => []
  | x :: xs => insertStr x (sortStr xs)

/-- `sorted(SAFELISTED_HEADERS | set(allow_headers))`. -/
def corsAllowHeaders (c : CORSConfig) : List String :=
  sortStr ((SAFELISTED_HEADERS ++
    c.allow_headers.filter (fun h => !SAFELISTED_HEADERS.contains h)).dedup)

def isAllowedOrigin (c : CORSConfig) (origin : String) : Bool :=
  allowAllOrigins c || c.allow_origins.contains origin

/-- The headers attached to non-preflight responses (`simple_headers`). -/
def simpleHeaders (c : CORSConfig) : List (String × String) :=
  (if allowAllOrigins c then [("access-control-allow-origin", "*")] else []) ++
  (if c.allow_credentials then [("access-control-allow-credentials", "true")] else [])

/-- The base headers of a preflight response (`preflight_headers`). -/
def preflightHeaders (c : CORSConfig) : List (String × String) :=
  (if preflightExplicitAllowOrigin c then [("vary", "Origin")]
   else [("access-control-allow-origin", "*")]) ++
  [("access-control-allow-methods", String.intercalate ", " (effectiveAllowMethods c)),
   ("access-control-max-age", toString c.max_age)] ++
  (if allowAllHeaders c ∨ corsAllowHeaders c = [] then []
   else [("access-control-allow-headers", String.intercalate ", " (corsAllowHeaders c))]) ++
  (if c.allow_credentials then [("access-control-allow-credentials", "true")] else [])

/-- Echo the request origin and mark the response as origin-dependent
(`allow_explicit_origin`). -/
def allowExplicitOrigin (hs : List (String × String)) (origin : String) :
    List (String × String) :=
  setHeader (setHeader hs "vary" "Origin") "access-control-allow-origin" origin

/-- Are all the comma-separated requested headers within the allowed set? -/
def headersAllAllowed (c : CORSConfig) (rh : String) : Bool :=
  (rh.toLower.splitOn ",").all
    (fun h => ((corsAllowHeaders c).map String.toLower).contains h.trim)

/-- Starlette `CORSMiddleware.preflight_response`. -/
def preflightResponse (c : CORSConfig) (reqHeaders : List (String × String)) : Response :=
  let requestedOrigin := (headerLookup reqHeaders "origin").getD ""
  let requestedMethod := (headerLookup reqHeaders "access-control-request-method").getD ""
  let requestedHeaders := headerLookup reqHeaders "access-control-request-headers"
  let originOk := isAllowedOrigin c requestedOrigin
  let hs1 := if originOk && preflightExplicitAllowOrigin c then
      setHeader (preflightHeaders c) "access-control-allow-origin" requestedOrigin
    else preflightHeaders c
  let methodOk := (effectiveAllowMethods c).contains requestedMethod
  let hs2 := match requestedHeaders with
    | some rh => if allowAllHeaders c then setHeader hs1 "access-control-allow-headers" rh
                 else hs1
    | none => hs1
  let headersOk := match requestedHeaders with
    | some rh => allowAllHeaders c || headersAllAllowed c rh
    | none => true
  let failures := (if originOk then [] else ["origin"]) ++
    (if methodOk then [] else ["method"]) ++
    (if headersOk then [] else ["headers"])
  { status := if failures = [] then 200 else 400,
    headers := hs2,
    body := if failures = [] then Body.text "OK"
            else Body.text ("Disallowed CORS " ++ String.intercalate ", " failures) }

/-- Starlette `CORSMiddleware.send` on the inner response of a non-preflight
request carrying an `origin` header. -/
def corsSimpleWrap (c : CORSConfig) (reqHeaders : List (String × String))
    (origin : String) (r : Response) : Response :=
  let hs := updateHeaders r.headers (simpleHeaders c)
  let hasCookie := (headerLookup reqHeaders "cookie").isSome
  let hs := if allowAllOrigins c && hasCookie then allowExplicitOrigin hs origin
    else if !allowAllOrigins c && isAllowedOrigin c origin then allowExplicitOrigin hs origin
    else hs
  { status := r.status, headers := hs, body := r.body }

/-- Starlette `CORSMiddleware.__call__` wrapping an inner application. -/
def corsApp (c : CORSConfig) (inner : Request → Response) (req : Request) : Response :=
  match headerLookup req.headers "origin" with
  | none => inner req
  | some origin =>
    if req.method = "OPTIONS" ∧
        (headerLookup req.headers "access-control-request-method").isSome then
      preflightResponse c req.headers
    else corsSimpleWrap c req.headers origin (inner req)

/-! ### Routing and the health endpoint -/

/-- A Starlette `HTTPException`: raised by the router for an unmatched path
(404) or a matched path with a wrong method (405). -/
structure HTTPException where
  status : Nat
  detail : String
deriving DecidableEq

/-- The fixed payload returned by `healthz` (main.py line 16): a JSON object
whose single field `message` holds the string `Service healthy.`. -/
def healthzBody : Body := Body.json [("message", "Service healthy.")]

/-- The `healthz` handler, main.py lines 14-16.  Its Python body is a single
`return` of a dict literal, so as an effectful computation it always
succeeds; it reads nothing from the request. -/
def healthzEndpoint (_ : Request) : Except HTTPException Body := Except.ok healthzBody

/-- Starlette `get_route_path`: remove `root` from the front of the request
path when it is a leading part of it, otherwise leave the path unchanged. -/
def stripRoot (root p : String) : String :=
  if root.data.isPrefixOf p.data then ⟨p.data.drop root.data.length⟩ else p

/-- Python `rstrip("/")`: drop every trailing slash. -/
def rstripSlash (p : String) : String :=
  ⟨(p.data.reverse.dropWhile (fun c => c == '/')).reverse⟩

/-- Does the string end with a slash? -/
def endsWithSlash (p : String) : Bool :=
  match p.data.reverse with
  | [] => false
  | c :: _ => c == '/'

/-- The path the Starlette router retries under `redirect_slashes`: trailing
slashes removed when the route path ends with one, a slash appended
otherwise. -/
def slashToggledPath (req : Request) : String :=
  if endsWithSlash (stripRoot root_path req.path) then rstripSlash req.path
  else req.path ++ "/"

/-- Starlette `RedirectResponse` as issued by the router's
`redirect_slashes` branch: status 307, a `location` header, empty body.
The real `location` value is the absolute URL (scheme, host, toggled path
and query); scheme and host are not part of the modelled request, so the
header here keeps the toggled path. -/
def redirectResponse (loc : String) : Response :=
  { status := 307, headers := [("location", loc)], body := Body.text "" }

/-- The router built by `app.get("/healthz")`: match the root-stripped path
against `/healthz` with method set `GET` (FastAPI `APIRoute` registers
exactly the methods given to `app.get`), run the endpoint on a full match,
and raise an `HTTPException` on a path match with another method.  With no
path match, Starlette `Router.app` with its default `redirect_slashes=True`
first retries the slash-toggled path (unless the route path is `/`) and
answers any match with a 307 redirect; only then does it fall through to
the 404 exception. -/
def routerRun (req : Request) : Except HTTPException Response :=
  if stripRoot root_path req.path = "/healthz" then
    if req.method = "GET" then
      match healthzEndpoint req with
      | Except.ok b =>
          Except.ok { status := 200, headers := [("content-type", "application/json")],
                      body := b }
      | Except.error e => Except.error e
    else Except.error { status := 405, detail := "Method Not Allowed" }
  else if stripRoot root_path req.path ≠ "/" ∧
      stripRoot root_path (slashToggledPath req) = "/healthz" then
    Except.ok (redirectResponse (slashToggledPath req))
  else Except.error { status := 404, detail := "Not Found" }

/-- FastAPI renders an `HTTPException` as a JSON response with a `detail`
field and the exception status. -/
def httpExceptionResponse (e : HTTPException) : Response :=
  { status := e.status, headers := [("content-type", "application/json")],
    body := Body.json [("detail", e.detail)] }

/-- The application inside the middleware stack: router plus the FastAPI
`HTTPException` handler. -/
def appHandle (req : Request) : Response :=
  match routerRun req with
  | Except.ok r => r
  | Except.error e => httpExceptionResponse e

/-- The full application of main.py: the CORS middleware of lines 6-12
wrapped around the routed app. -/
def serve (req : Request) : Response := corsApp corsConfig appHandle req

/-! ### Repeated calls and application state -/

/-- The mutable application state: main.py declares none, so the state type
has exactly one value. -/
def AppState : Type := Unit

/-- One request/response exchange, threading the application state. -/
def serveSt (req : Request) (s : AppState) : Response × AppState := (serve req, s)

/-- `n` successive exchanges of the same request, threading the state. -/
def serveTimes (req : Request) : Nat → AppState → List Response × AppState
  | 0, s => ([], s)
  | n + 1, s =>
    let first := serveSt req s
    let rest := serveTimes req n first.2
    (first.1 :: rest.1, rest.2)

/-! ### Header block lemmas -/

theorem headerLookup_removeKey (hs : List (String × String)) (n n' : String)
    (h : n' ≠ n) :
    headerLookup (removeKey hs n) n' = headerLookup hs n' := by
  induction hs with
  | nil => rfl
  | cons kv t ih =>
    by_cases hk : kv.1 = n
    · have hne : ¬ kv.1 = n' := fun e => h (e.symm.trans hk)
      simp [removeKey, hk, headerLookup, hne, Ne.symm h, ih]
    · simp [removeKey, hk, headerLookup, ih]

theorem headerLookup_setHeader_self (hs : List (String × String)) (n v : String) :
    headerLookup (setHeader hs n v) n = some v := by
  simp [setHeader, headerLookup]

theorem headerLookup_setHeader_ne (hs : List (String × String)) (n v n' : String)
    (h : n' ≠ n) :
    headerLookup (setHeader hs n v) n' = headerLookup hs n' := by
  simp [setHeader, headerLookup, Ne.symm h, headerLookup_removeKey hs n n' h]

/-! ### Behaviour of the routed application -/

/-- Every response of the routed application carries either just the JSON
content type or just a `location` header (redirect case); in particular it
never carries a CORS header of its own. -/
theorem appHandle_headers (req : Request) :
    (appHandle req).headers = [("content-type", "application/json")] ∨
    (appHandle req).headers = [("location", slashToggledPath req)] := by
  by_cases h1 : stripRoot root_path req.path = "/healthz"
  · by_cases h2 : req.method = "GET" <;>
      simp [appHandle, routerRun, healthzEndpoint, h1, h2, httpExceptionResponse]
  · by_cases h3 : stripRoot root_path req.path ≠ "/" ∧
        stripRoot root_path (slashToggledPath req) = "/healthz" <;>
      simp [appHandle, routerRun, h1, h3, httpExceptionResponse, redirectResponse]

theorem appHandle_healthz (req : Request) (hm : req.method = "GET")
    (hp : stripRoot root_path req.path = "/healthz") :
    appHandle req =
      { status := 200, headers := [("content-type", "application/json")],
        body := healthzBody } := by
  simp [appHandle, routerRun, healthzEndpoint, hm, hp]

theorem corsSimpleWrap_status (c : CORSConfig) (reqHeaders : List (String × String))
    (origin : String) (r : Response) :
    (corsSimpleWrap c reqHeaders origin r).status = r.status := rfl

theorem corsSimpleWrap_body (c : CORSConfig) (reqHeaders : List (String × String))
    (origin : String) (r : Response) :
    (corsSimpleWrap c reqHeaders origin r).body = r.body := rfl

/-- A request the middleware does not treat as a CORS preflight keeps the
status and body produced by the routed application. -/
theorem serve_nonpreflight (req : Request)
    (h : ¬ (req.method = "OPTIONS" ∧
      (headerLookup req.headers "access-control-request-method").isSome)) :
    (serve req).status = (appHandle req).status ∧
    (serve req).body = (appHandle req).body := by
  unfold serve corsApp
  cases ho : headerLookup req.headers "origin" with
  | none => exact ⟨rfl, rfl⟩
  | some o => simp [h, corsSimpleWrap_status, corsSimpleWrap_body]

/-- A GET request whose root-stripped path is the health route gets status
200 and the health payload, whatever its headers and query are. -/
theorem serve_healthz_ok (req : Request) (hm : req.method = "GET")
    (hp : stripRoot root_path req.path = "/healthz") :
    (serve req).status = 200 ∧ (serve req).body = healthzBody := by
  unfold serve corsApp
  cases ho : headerLookup req.headers "origin" with
  | none => simp [appHandle_healthz req hm hp]
  | some o =>
    have : ¬ (req.method = "OPTIONS" ∧
        (headerLookup req.headers "access-control-request-method").isSome) := by
      rw [hm]; simp
    simp [this, corsSimpleWrap_status, corsSimpleWrap_body, appHandle_healthz req hm hp]

/-! ### Claims about the health route -/

/-- C1: every GET request for the path `/healthz` is answered with HTTP
status 200 and exactly the fixed JSON body whose single field `message`
holds `Service healthy.`, whatever its headers and query are. -/
theorem C1_healthz_get_ok (req : Request) (hm : req.method = "GET")
    (hp : req.path = "/healthz") :
    (serve req).status = 200 ∧ (serve req).body = healthzBody := by
  apply serve_healthz_ok req hm
  rw [hp]
  decide

theorem C1_healthz_get_ok_witness :
    (serve ⟨"GET", "/healthz", [], []⟩).status = 200 ∧
    (serve ⟨"GET", "/healthz", [], []⟩).body = healthzBody :=
  C1_healthz_get_ok ⟨"GET", "/healthz", [], []⟩ rfl rfl

/-- C2: the application is mounted under the fixed root path
`/api/v1/resource`, so a GET request for the full path
`/api/v1/resource/healthz` reaches the health handler: the root path is
stripped from the front of the request path, the remainder matches the
registered route, and the response is 200 with the health payload. -/
theorem C2_root_path_full_route (hs qs : List (String × String)) :
    (serve ⟨"GET", "/api/v1/resource/healthz", hs, qs⟩).status = 200 ∧
    (serve ⟨"GET", "/api/v1/resource/healthz", hs, qs⟩).body = healthzBody :=
  serve_healthz_ok ⟨"GET", "/api/v1/resource/healthz", hs, qs⟩ rfl
    (show stripRoot root_path "/api/v1/resource/healthz" = "/healthz" by decide)

/-- C4 as stated is false: a GET for the trailing-slash variant
`/api/v1/resource/healthz/` of the health path gets a 307 redirect from the
router (Starlette `redirect_slashes`), not a not-found response. -/
theorem C4_counterexample :
    (serve ⟨"GET", "/api/v1/resource/healthz/", [], []⟩).status = 307 ∧
    (serve ⟨"GET", "/api/v1/resource/healthz/", [], []⟩).status ≠ 404 :=
  ⟨by decide, by decide⟩

/-- C4 amended: a GET request whose root-stripped path is not the health
route, and whose slash-toggled path is not the health route either, gets
status 404 and a body that is not the health payload (trailing-slash
variants of the health path get a 307 redirect instead, per the
counterexample). -/
theorem C4_unknown_path_not_found (req : Request) (hm : req.method = "GET")
    (hp : stripRoot root_path req.path ≠ "/healthz")
    (hp2 : stripRoot root_path (slashToggledPath req) ≠ "/healthz") :
    (serve req).status = 404 ∧ (serve req).body ≠ healthzBody := by
  have happ : appHandle req = httpExceptionResponse ⟨404, "Not Found"⟩ := by
    simp [appHandle, routerRun, hp, hp2]
  have hno : ¬ (req.method = "OPTIONS" ∧
      (headerLookup req.headers "access-control-request-method").isSome) := by
    rw [hm]; simp
  obtain ⟨hs, hb⟩ := serve_nonpreflight req hno
  rw [hs, hb, happ]
  exact ⟨rfl, by decide⟩

theorem C4_unknown_path_not_found_witness :
    (serve ⟨"GET", "/api/v1/resource/unknown", [], []⟩).status = 404 ∧
    (serve ⟨"GET", "/api/v1/resource/unknown", [], []⟩).body ≠ healthzBody :=
  C4_unknown_path_not_found ⟨"GET", "/api/v1/resource/unknown", [], []⟩ rfl
    (by decide) (by decide)

/-- C5: two GET requests to the health route that differ only in their
headers and query parameters get responses with the same status and the
same body. -/
theorem C5_request_inputs_irrelevant (p : String) (h1 q1 h2 q2 : List (String × String))
    (hp : stripRoot root_path p = "/healthz") :
    (serve ⟨"GET", p, h1, q1⟩).status = (serve ⟨"GET", p, h2, q2⟩).status ∧
    (serve ⟨"GET", p, h1, q1⟩).body = (serve ⟨"GET", p, h2, q2⟩).body := by
  obtain ⟨s1, b1⟩ := serve_healthz_ok ⟨"GET", p, h1, q1⟩ rfl hp
  obtain ⟨s2, b2⟩ := serve_healthz_ok ⟨"GET", p, h2, q2⟩ rfl hp
  exact ⟨s1.trans s2.symm, b1.trans b2.symm⟩

theorem C5_request_inputs_irrelevant_witness :
    (serve ⟨"GET", "/healthz", [("x-extra", "1")], [("verbose", "true")]⟩).status =
      (serve ⟨"GET", "/healthz", [], []⟩).status ∧
    (serve ⟨"GET", "/healthz", [("x-extra", "1")], [("verbose", "true")]⟩).body =
      (serve ⟨"GET", "/healthz", [], []⟩).body :=
  C5_request_inputs_irrelevant "/healthz" [("x-extra", "1")] [("verbose", "true")] [] []
    (by decide)

/-- C6: serving the same request `n` times yields `n` identical responses
and leaves the application state exactly as it was. -/
theorem C6_idempotent_stateless (req : Request) (n : Nat) (s : AppState) :
    (serveTimes req n s).1 = List.replicate n (serve req) ∧
    (serveTimes req n s).2 = s := by
  induction n with
  | zero => exact ⟨rfl, rfl⟩
  | succ k ih => simpa [serveTimes, serveSt, List.replicate] using ih

/-- C7: the health handler has no error branch: on every request it is
invoked on it returns its payload and never an exception, and the router
consequently produces the success response whenever the route is hit. -/
theorem C7_handler_cannot_fail (req : Request) (hm : req.method = "GET")
    (hp : stripRoot root_path req.path = "/healthz") :
    (∀ e : HTTPException, healthzEndpoint req ≠ Except.error e) ∧
    routerRun req =
      Except.ok { status := 200, headers := [("content-type", "application/json")],
                  body := healthzBody } := by
  constructor
  · intro e he
    simp [healthzEndpoint] at he
  · simp [routerRun, hp, hm, healthzEndpoint]

theorem C7_handler_cannot_fail_witness :
    (∀ e : HTTPException, healthzEndpoint ⟨"GET", "/healthz", [], []⟩ ≠ Except.error e) ∧
    routerRun ⟨"GET", "/healthz", [], []⟩ =
      Except.ok { status := 200, headers := [("content-type", "application/json")],
                  body := healthzBody } :=
  C7_handler_cannot_fail ⟨"GET", "/healthz", [], []⟩ rfl (by decide)

/-- C8: the health route is registered for GET only: a request for the
health path with any other method that is not a CORS preflight gets status
405 and a body that is not the health payload. -/
theorem C8_get_only_405 (req : Request)
    (hp : stripRoot root_path req.path = "/healthz")
    (hm : req.method ≠ "GET")
    (hnp : ¬ (req.method = "OPTIONS" ∧
      (headerLookup req.headers "origin").isSome ∧
      (headerLookup req.headers "access-control-request-method").isSome)) :
    (serve req).status = 405 ∧ (serve req).body ≠ healthzBody := by
  have happ : appHandle req = httpExceptionResponse ⟨405, "Method Not Allowed"⟩ := by
    simp [appHandle, routerRun, hp, hm]
  cases ho : headerLookup req.headers "origin" with
  | none =>
    have : serve req = appHandle req := by simp [serve, corsApp, ho]
    rw [this, happ]
    exact ⟨rfl, by decide⟩
  | some o =>
    have hno : ¬ (req.method = "OPTIONS" ∧
        (headerLookup req.headers "access-control-request-method").isSome) := by
      intro hx
      exact hnp ⟨hx.1, by rw [ho]; simp, hx.2⟩
    obtain ⟨hs, hb⟩ := serve_nonpreflight req hno
    rw [hs, hb, happ]
    exact ⟨rfl, by decide⟩

theorem C8_get_only_405_witness :
    (serve ⟨"POST", "/healthz", [], []⟩).status = 405 ∧
    (serve ⟨"POST", "/healthz", [], []⟩).body ≠ healthzBody :=
  C8_get_only_405 ⟨"POST", "/healthz", [], []⟩ (by decide) (by decide) (by decide)

/-- C9: a request without an `origin` header gets a response without an
`access-control-allow-origin` header: the middleware passes such requests
straight through and the routed application attaches no CORS headers. -/
theorem C9_no_origin_no_cors (req : Request)
    (ho : headerLookup req.headers "origin" = none) :
    headerLookup (serve req).headers "access-control-allow-origin" = none := by
  rcases appHandle_headers req with h | h <;>
    simp [serve, corsApp, ho, h, headerLookup]

theorem C9_no_origin_no_cors_witness :
    headerLookup (serve ⟨"GET", "/healthz", [], []⟩).headers
      "access-control-allow-origin" = none :=
  C9_no_origin_no_cors ⟨"GET", "/healthz", [], []⟩ rfl

/-! ### CORS header content under the policy of main.py -/

/-- Unfolding of the middleware on a request bearing an `origin` header. -/
theorem corsApp_some (c : CORSConfig) (inner : Request → Response) (req : Request)
    (o : String) (ho : headerLookup req.headers "origin" = some o) :
    corsApp c inner req =
      (if req.method = "OPTIONS" ∧
          (headerLookup req.headers "access-control-request-method").isSome then
        preflightResponse c req.headers
      else corsSimpleWrap c req.headers o (inner req)) := by
  unfold corsApp
  rw [ho]

/-- Under the registered policy, a preflight response names the request
origin explicitly (credentials are allowed, so the wildcard may not be
used) and allows credentials. -/
theorem preflightResponse_headers (reqHeaders : List (String × String)) (o : String)
    (ho : headerLookup reqHeaders "origin" = some o) :
    headerLookup (preflightResponse corsConfig reqHeaders).headers
      "access-control-allow-origin" = some o ∧
    headerLookup (preflightResponse corsConfig reqHeaders).headers
      "access-control-allow-credentials" = some "true" := by
  cases hrh : headerLookup reqHeaders "access-control-request-headers" with
  | none =>
    simp [preflightResponse, ho, hrh, corsConfig, isAllowedOrigin, allowAllOrigins,
      allowAllHeaders, preflightExplicitAllowOrigin, preflightHeaders,
      effectiveAllowMethods, corsAllowHeaders, setHeader, removeKey, headerLookup]
  | some rh =>
    simp [preflightResponse, ho, hrh, corsConfig, isAllowedOrigin, allowAllOrigins,
      allowAllHeaders, preflightExplicitAllowOrigin, preflightHeaders,
      effectiveAllowMethods, corsAllowHeaders, setHeader, removeKey, headerLookup]

/-- Under the registered policy, a non-preflight response to an
origin-bearing request carries the wildcard allow-origin unless the request
also carries a cookie, in which case the request origin is echoed; either
way credentials are allowed. -/
theorem corsSimpleWrap_headers (reqHeaders : List (String × String)) (o : String)
    (r : Response) :
    headerLookup (corsSimpleWrap corsConfig reqHeaders o r).headers
        "access-control-allow-origin" =
      (if (headerLookup reqHeaders "cookie").isSome then some o else some "*") ∧
    headerLookup (corsSimpleWrap corsConfig reqHeaders o r).headers
      "access-control-allow-credentials" = some "true" := by
  by_cases hc : (headerLookup reqHeaders "cookie").isSome <;>
    simp [corsSimpleWrap, hc, corsConfig, allowAllOrigins, isAllowedOrigin,
      updateHeaders, simpleHeaders, allowExplicitOrigin,
      headerLookup_setHeader_self, headerLookup_setHeader_ne]

/-- C3 as stated is false: the response to a request that carries no
`origin` header contains no `access-control-allow-origin` header at all
(and no `access-control-allow-credentials` header). -/
theorem C3_counterexample :
    headerLookup (serve ⟨"GET", "/healthz", [], []⟩).headers
      "access-control-allow-origin" = none ∧
    headerLookup (serve ⟨"GET", "/healthz", [], []⟩).headers
      "access-control-allow-credentials" = none :=
  ⟨by decide, by decide⟩

/-- C3 amended: every response to a request bearing an `origin` header
carries an `access-control-allow-origin` header and allows credentials;
requests without an `origin` header are passed through without CORS
headers. -/
theorem C3_cors_headers_for_origin_requests (req : Request) (o : String)
    (ho : headerLookup req.headers "origin" = some o) :
    (headerLookup (serve req).headers "access-control-allow-origin").isSome = true ∧
    headerLookup (serve req).headers "access-control-allow-credentials" = some "true" := by
  have hserve := corsApp_some corsConfig appHandle req o ho
  by_cases hpre : req.method = "OPTIONS" ∧
      (headerLookup req.headers "access-control-request-method").isSome
  · obtain ⟨h1, h2⟩ := preflightResponse_headers req.headers o ho
    rw [show serve req = _ from hserve, if_pos hpre]
    exact ⟨by rw [h1]; rfl, h2⟩
  · obtain ⟨h1, h2⟩ :=
      corsSimpleWrap_headers req.headers o (appHandle req)
    rw [show serve req = _ from hserve, if_neg hpre]
    refine ⟨?_, h2⟩
    rw [h1]
    by_cases hc : (headerLookup req.headers "cookie").isSome <;> simp [hc]

theorem C3_cors_headers_for_origin_requests_witness :
    (headerLookup (serve ⟨"GET", "/healthz", [("origin", "http://example.com")], []⟩).headers
      "access-control-allow-origin").isSome = true ∧
    headerLookup (serve ⟨"GET", "/healthz", [("origin", "http://example.com")], []⟩).headers
      "access-control-allow-credentials" = some "true" :=
  C3_cors_headers_for_origin_requests
    ⟨"GET", "/healthz", [("origin", "http://example.com")], []⟩
    "http://example.com" (by decide)

/-- C10 as stated is false: a GET request bearing an origin but no cookie is
answered with the literal wildcard allow-origin, not the request origin. -/
theorem C10_counterexample :
    headerLookup (serve ⟨"GET", "/healthz", [("origin", "http://example.com")], []⟩).headers
      "access-control-allow-origin" = some "*" ∧
    (some "*" : Option String) ≠ some "http://example.com" :=
  ⟨by decide, by decide⟩

/-- C10 amended: for a request bearing an `origin` header, the allow-origin
value is the request origin on the preflight path and on requests that also
carry a cookie; every other response carries the literal wildcard. -/
theorem C10_acao_reflection (req : Request) (o : String)
    (ho : headerLookup req.headers "origin" = some o) :
    headerLookup (serve req).headers "access-control-allow-origin" =
      (if req.method = "OPTIONS" ∧
          (headerLookup req.headers "access-control-request-method").isSome then some o
       else if (headerLookup req.headers "cookie").isSome then some o
       else some "*") := by
  have hserve := corsApp_some corsConfig appHandle req o ho
  by_cases hpre : req.method = "OPTIONS" ∧
      (headerLookup req.headers "access-control-request-method").isSome
  · rw [show serve req = _ from hserve, if_pos hpre, if_pos hpre]
    exact (preflightResponse_headers req.headers o ho).1
  · rw [show serve req = _ from hserve, if_neg hpre, if_neg hpre]
    exact (corsSimpleWrap_headers req.headers o (appHandle req)).1

theorem C10_acao_reflection_witness :
    headerLookup (serve ⟨"OPTIONS", "/healthz",
        [("origin", "http://example.com"), ("access-control-request-method", "GET")],
        []⟩).headers "access-control-allow-origin" = some "http://example.com" := by
  have h := C10_acao_reflection
    ⟨"OPTIONS", "/healthz",
      [("origin", "http://example.com"), ("access-control-request-method", "GET")], []⟩
    "http://example.com" (by decide)
  exact h.trans (by decide)

end JraphServer
